import Mathlib

/-!
Verification of the DucoBox Communication Print API client
(`custom_components/ducobox/api.py`).

The client talks to the device over HTTP GET requests carrying query
parameters; each request either raises a transport fault or yields a status
code together with a JSON body (whose decoding may itself fail).  We embed
the transport as a function from requests to outcomes and translate each
operation of `DucoCommunicationPrintApi` into a pure Lean function over that
environment, returning its result together with the list of requests it
issued.  Python-level behaviours that matter to the control flow (dict
truthiness, `dict.get`, the `in` operator, exceptions raised by ill-typed
operations such as comparing a string with an integer) are modelled
explicitly via `Except Unit`.
-/

/-- JSON values as decoded from a response body.  The device speaks flat
objects of strings and integers with some nested objects; arrays never occur
in the schemas this client reads. -/
inductive JsonVal where
  | str (s : String)
  | num (n : Int)
  | obj (fields : List (String × JsonVal))
  | null

/-- Python truthiness of a JSON value: empty string, zero, empty dict and
None are falsy. -/
def truthy : JsonVal → Bool
  | .str s => s != ""
  | .num n => n != 0
  | .obj fs => !fs.isEmpty
  | .null => false

/-- Python truthiness of a possibly-missing value (absence is falsy). -/
def truthyO : Option JsonVal → Bool
  | none => false
  | some v => truthy v

/-- Key lookup in a decoded JSON object (`dict.get(key)` on a dict). -/
def jlookup (fields : List (String × JsonVal)) (key : String) : Option JsonVal :=
  fields.lookup key

/-- Python `value.get(key)` on an arbitrary value: an AttributeError is raised
unless the value is a dict. -/
def pyDictGet (v : JsonVal) (key : String) : Except Unit (Option JsonVal) :=
  match v with
  | .obj fs => .ok (jlookup fs key)
  | _ => .error ()

/-- Contiguous-substring test on character lists, used to model the Python
`in` operator on strings. -/
def pySubstr (needle hay : List Char) : Bool :=
  match hay with
  | [] => needle.isEmpty
  | _ :: t => needle.isPrefixOf hay || pySubstr needle t

/-- Python `key in value`: key membership for dicts, substring test for
strings, a TypeError for numbers and None. -/
def pyIn (key : String) (v : JsonVal) : Except Unit Bool :=
  match v with
  | .obj fs => .ok (fs.any (fun p => p.1 == key))
  | .str s => .ok (pySubstr key.toList s.toList)
  | _ => .error ()

/-- Python `value[key]` with a string key: dict indexing (KeyError when the
key is missing), a TypeError on any non-dict. -/
def pyIndex (v : JsonVal) (key : String) : Except Unit JsonVal :=
  match v with
  | .obj fs =>
    match jlookup fs key with
    | some x => .ok x
    | none => .error ()
  | _ => .error ()

/-- Model of `response.raise_for_status()`: raises exactly for status codes >= 400. -/
def pyRaiseForStatus (status : Nat) : Except Unit Unit :=
  if 400 ≤ status then .error () else .ok ()

/-- Python `int(value)` on a (rational-valued) float: truncation toward
zero. -/
def pyInt (v : ℚ) : Int :=
  if 0 ≤ v then ⌊v⌋ else ⌈v⌉

/-- The endpoints of the Communication Print dialect consumed or written by
the client. -/
inductive Endpoint where
  | nodeinfoget
  | nodesetoperstate
  | boxinfoget
  | nodeconfigget
  | boxconfigget
  | nodeconfigset
  | boxconfigset
  | nodesetoverrule
deriving DecidableEq

/-- A query-parameter value: the client only ever sends strings and
integers. -/
inductive ParamVal where
  | s (v : String)
  | i (v : Int)
deriving DecidableEq

/-- One HTTP GET request as issued by the client: endpoint, query
parameters in the order the source builds them, and the per-call timeout in
seconds. -/
structure Request where
  endpoint : Endpoint
  params : List (String × ParamVal)
  timeout : Nat
deriving DecidableEq

/-- Outcome of one HTTP GET: either the transport raises (connection error,
timeout, ...), or a response arrives with a status code and a body.  The
body is `none` when `response.json()` would raise a decode fault. -/
inductive HttpResult where
  | err
  | ok (status : Nat) (body : Option JsonVal)

/-- The transport environment: what each possible request would return.
Requests are issued sequentially, so a pure function suffices. -/
abbrev Env := Request → HttpResult

/-- The `STATE_MAP` table: the fixed Communication Print state-code to friendly-label
table, in source order. -/
def STATE_MAP : List (String × String) :=
  [("AUTO", "Auto"),
   ("MAN1", "Manual 1"),
   ("CNT1", "Manual 1 Forced"),
   ("MAN2", "Manual 2"),
   ("CNT2", "Manual 2 Forced"),
   ("MAN3", "Manual 3"),
   ("CNT3", "Manual 3 Forced"),
   ("EMPT", "Away")]

/-- The reverse table `STATE_REVERSE_MAP = {v: k for k, v in STATE_MAP.items()}`. -/
def STATE_REVERSE_MAP : List (String × String) :=
  STATE_MAP.map (fun p => (p.2, p.1))

/-- Model of `async_get_ventilation_state_options`: returns
`list(self.STATE_MAP.values())`; the body performs no HTTP request, so the
request log is empty for every environment. -/
def async_get_ventilation_state_options (_ : Env) : List String × List Request :=
  (STATE_MAP.map (fun p => p.2), [])

/-- Model of `self.STATE_REVERSE_MAP.get(state, state)` from
`async_set_ventilation_state`: label to device code, verbatim fallback. -/
def stateToApi (state : String) : String :=
  (STATE_REVERSE_MAP.lookup state).getD state

/-- The state translation step of `async_get_data` (source lines 210-211):
`if state and state in self.STATE_MAP: state = self.STATE_MAP[state]`. -/
def stateToLabel (state : String) : String :=
  if state != "" && (STATE_MAP.lookup state).isSome then
    (STATE_MAP.lookup state).getD state
  else state

/-- The request issued by `async_set_ventilation_state`. -/
def nodeSetOperStateReq (value : String) : Request :=
  ⟨.nodesetoperstate, [("node", .i 1), ("value", .s value)], 10⟩

/-- Model of `async_set_ventilation_state`: translates the label, issues one GET and
calls `raise_for_status()`; there is no try/except in this operation, so
transport faults and error statuses escape to the caller (`.error`). -/
def async_set_ventilation_state (env : Env) (state : String) :
    Except Unit Bool × List Request :=
  let req := nodeSetOperStateReq (stateToApi state)
  match env req with
  | .err => (.error (), [req])
  | .ok status _ =>
    match pyRaiseForStatus status with
    | .error e => (.error e, [req])
    | .ok _ => (.ok (status == 200), [req])

/-- The fixed set `box_level_params` from `async_set_node_config`. -/
def box_level_params : List String :=
  ["BypassMode", "BypassAdaptive", "ComfortTemperature", "FilterReset",
   "CalibPinMax", "CalibPoutMax", "CalibQout", "ProgramModeZone1",
   "ProgramModeZone2"]

/-- The box-config write request: `/boxconfigset` with
`{"mod": "Energy", "para": parameter, "value": int(value)}`. -/
def boxConfigSetReq (parameter : String) (value : Int) : Request :=
  ⟨.boxconfigset, [("mod", .s "Energy"), ("para", .s parameter), ("value", .i value)], 10⟩

/-- The node-config write request: `/nodeconfigset` with
`{"node": node_id, "para": parameter, "value": int(value)}`. -/
def nodeConfigSetReq (node_id : Int) (parameter : String) (value : Int) : Request :=
  ⟨.nodeconfigset, [("node", .i node_id), ("para", .s parameter), ("value", .i value)], 10⟩

/-- Model of `async_set_node_config`: routes to the box endpoint exactly when the
target is node 1 and the parameter is box-level, truncates the value with
`int(...)`, and absorbs every failure of the call into `False` (the whole
body is wrapped in try/except). -/
def async_set_node_config (env : Env) (node_id : Int) (parameter : String)
    (value : ℚ) : Bool × List Request :=
  if node_id == 1 && box_level_params.contains parameter then
    let req := boxConfigSetReq parameter (pyInt value)
    match env req with
    | .err => (false, [req])
    | .ok status _ => (status == 200, [req])
  else
    let req := nodeConfigSetReq node_id parameter (pyInt value)
    match env req with
    | .err => (false, [req])
    | .ok status _ => (status == 200, [req])

/-- The flow-override request issued by `async_set_node_override`. -/
def nodeSetOverruleReq (node_id : Int) (percentage : Int) : Request :=
  ⟨.nodesetoverrule, [("node", .i node_id), ("value", .i percentage)], 10⟩

/-- Model of `async_set_node_override`: one GET, `True` iff status 200, all failures
absorbed into `False` by the surrounding try/except. -/
def async_set_node_override (env : Env) (node_id : Int) (percentage : Int) :
    Bool × List Request :=
  let req := nodeSetOverruleReq node_id percentage
  match env req with
  | .err => (false, [req])
  | .ok status _ => (status == 200, [req])

/-- The record `DucoBoxEnergyInfo` as built by `async_get_energy_info`: temperatures
are rationals (tenths of a degree divided by 10), the remaining fields are
the raw JSON values. -/
structure DucoBoxEnergyInfo where
  temp_oda : Option ℚ
  temp_sup : Option ℚ
  temp_eta : Option ℚ
  temp_eha : Option ℚ
  bypass_status : Option JsonVal
  filter_remaining_time : Option JsonVal
  supply_fan_speed : Option JsonVal
  supply_fan_pwm_percentage : Option JsonVal
  exhaust_fan_speed : Option JsonVal
  exhaust_fan_pwm_percentage : Option JsonVal

/-- One temperature field:
`energy_data.get(k) / 10 if energy_data.get(k) else None`.  A truthy
non-numeric raw value makes the division raise a TypeError. -/
def decode_temp (raw : Option JsonVal) : Except Unit (Option ℚ) :=
  if truthyO raw then
    match raw with
    | some (.num n) => .ok (some ((n : ℚ) / 10))
    | _ => .error ()
  else .ok none

/-- The body of `async_get_energy_info` after a decoded response `data`:
extract the `EnergyInfo` and `EnergyFan` sections (defaulting to empty
dicts) and build the record, field by field in source order. -/
def buildEnergy (data : JsonVal) : Except Unit DucoBoxEnergyInfo := do
  let eOpt ← pyDictGet data "EnergyInfo"
  let energy_data := eOpt.getD (JsonVal.obj [])
  let fOpt ← pyDictGet data "EnergyFan"
  let fan_data := fOpt.getD (JsonVal.obj [])
  let rawOda ← pyDictGet energy_data "TempODA"
  let temp_oda ← decode_temp rawOda
  let rawSup ← pyDictGet energy_data "TempSUP"
  let temp_sup ← decode_temp rawSup
  let rawEta ← pyDictGet energy_data "TempETA"
  let temp_eta ← decode_temp rawEta
  let rawEha ← pyDictGet energy_data "TempEHA"
  let temp_eha ← decode_temp rawEha
  let bypass_status ← pyDictGet energy_data "BypassStatus"
  let filter_remaining_time ← pyDictGet energy_data "FilterRemainingTime"
  let supply_fan_speed ← pyDictGet fan_data "SupplyFanSpeed"
  let supply_fan_pwm_percentage ← pyDictGet fan_data "SupplyFanPwmPercentage"
  let exhaust_fan_speed ← pyDictGet fan_data "ExhaustFanSpeed"
  let exhaust_fan_pwm_percentage ← pyDictGet fan_data "ExhaustFanPwmPercentage"
  pure { temp_oda := temp_oda, temp_sup := temp_sup, temp_eta := temp_eta,
         temp_eha := temp_eha, bypass_status := bypass_status,
         filter_remaining_time := filter_remaining_time,
         supply_fan_speed := supply_fan_speed,
         supply_fan_pwm_percentage := supply_fan_pwm_percentage,
         exhaust_fan_speed := exhaust_fan_speed,
         exhaust_fan_pwm_percentage := exhaust_fan_pwm_percentage }

/-- The request issued by `async_get_energy_info` (`/boxinfoget`, standard
10-second timeout, no parameters). -/
def boxInfoGetReq : Request :=
  ⟨.boxinfoget, [], 10⟩

/-- Model of `async_get_energy_info`: one GET wrapped in a try/except returning
`None` on any failure (transport fault, error status via
`raise_for_status`, decode fault, or a TypeError while building). -/
def async_get_energy_info (env : Env) : Option DucoBoxEnergyInfo × List Request :=
  match env boxInfoGetReq with
  | .err => (none, [boxInfoGetReq])
  | .ok status body =>
    match pyRaiseForStatus status with
    | .error _ => (none, [boxInfoGetReq])
    | .ok _ =>
      match body with
      | none => (none, [boxInfoGetReq])
      | some data =>
        match buildEnergy data with
        | .error _ => (none, [boxInfoGetReq])
        | .ok info => (some info, [boxInfoGetReq])

/-- The record `DucoBoxNodeData` as built by the scanner; telemetry fields are the raw
JSON values, absent when the key is missing. -/
structure DucoBoxNodeData where
  node_id : Int
  location : JsonVal
  devtype : JsonVal
  temp : Option JsonVal
  co2 : Option JsonVal
  rh : Option JsonVal
  state : Option JsonVal
  mode : Option JsonVal
  swversion : Option JsonVal
  serialnb : Option JsonVal
  error : Option JsonVal
  ovrl : Option JsonVal
  netw : Option JsonVal
  cntdwn : Option JsonVal
  endtime : Option JsonVal
  rssi_n2m : Option JsonVal
  rssi_n2h : Option JsonVal
  hop_via : Option JsonVal
  asso : Option JsonVal
  cerr : Option JsonVal

/-- The humidity expression of the scanner:
`data.get("rh") if data.get("rh") and data.get("rh") > 0 else None`.
A truthy non-numeric raw value raises a TypeError in the comparison. -/
def sanitize_rh (raw : Option JsonVal) : Except Unit (Option JsonVal) :=
  if truthyO raw then
    match raw with
    | some (.num n) => .ok (if 0 < n then some (.num n) else none)
    | _ => .error ()
  else .ok none

/-- Building one `DucoBoxNodeData` from a decoded body: `data.get` requires
a dict; the node is kept only when both `location` and `devtype` are truthy;
the humidity is sanitized. -/
def buildNode (i : Int) (data : JsonVal) : Except Unit (Option DucoBoxNodeData) :=
  match data with
  | .obj fs =>
    if truthyO (jlookup fs "location") && truthyO (jlookup fs "devtype") then
      match sanitize_rh (jlookup fs "rh") with
      | .error e => .error e
      | .ok rh =>
        .ok (some
          { node_id := i
            location := (jlookup fs "location").getD (.str ("Node " ++ toString i))
            devtype := (jlookup fs "devtype").getD (.str "Unknown")
            temp := jlookup fs "temp"
            co2 := jlookup fs "co2"
            rh := rh
            state := jlookup fs "state"
            mode := jlookup fs "mode"
            swversion := jlookup fs "swversion"
            serialnb := jlookup fs "serialnb"
            error := jlookup fs "error"
            ovrl := jlookup fs "ovrl"
            netw := jlookup fs "netw"
            cntdwn := jlookup fs "cntdwn"
            endtime := jlookup fs "endtime"
            rssi_n2m := jlookup fs "rssi_n2m"
            rssi_n2h := jlookup fs "rssi_n2h"
            hop_via := jlookup fs "hop_via"
            asso := jlookup fs "asso"
            cerr := jlookup fs "cerr" })
    else .ok none
  | _ => .error ()

/-- The scan probe request for a candidate id: `/nodeinfoget` with the
shorter 2-second timeout. -/
def nodeInfoScanReq (i : Int) : Request :=
  ⟨.nodeinfoget, [("node", .i i)], 2⟩

/-- Python `range(start, stop)` over integers. -/
def pyRange (start stop : Nat) : List Int :=
  (List.range' start (stop - start)).map Int.ofNat

/-- The candidate scan space: `[range(2, 11), range(50, 101)]`. -/
def candidateIds : List Int :=
  pyRange 2 11 ++ pyRange 50 101

/-- One iteration of the scan loop for candidate `i`: the whole probe sits
in a try/except whose handler just continues, so every fault (transport,
decode, TypeError while building) yields `none`; a non-200 status or
missing/falsy `location`/`devtype` also yields `none`. -/
def probeNode (env : Env) (i : Int) : Option DucoBoxNodeData :=
  match env (nodeInfoScanReq i) with
  | .err => none
  | .ok status body =>
    if status == 200 then
      match body with
      | none => none
      | some data =>
        match buildNode i data with
        | .error _ => none
        | .ok r => r
    else none

/-- One fold step of the scan loop: the request is always issued (and
logged); the node is appended only when the probe produced one. -/
def scanStep (env : Env) (acc : List DucoBoxNodeData × List Request) (i : Int) :
    List DucoBoxNodeData × List Request :=
  match probeNode env i with
  | some n => (acc.1 ++ [n], acc.2 ++ [nodeInfoScanReq i])
  | none => (acc.1, acc.2 ++ [nodeInfoScanReq i])

/-- Model of `async_get_nodes`: sequentially probe every candidate id of both ranges
and collect the valid nodes in scan order, together with the probe log.
The loop body absorbs every per-candidate fault, so the whole scan is a
total function into a plain list: it can never raise. -/
def async_get_nodes (env : Env) : List DucoBoxNodeData × List Request :=
  candidateIds.foldl (scanStep env) ([], [])

/-- The record `DucoBoxNodeConfigParam`: the raw `Val`/`Min`/`Max`/`Inc` values with
the source's defaults. -/
structure DucoBoxNodeConfigParam where
  val : JsonVal
  min : JsonVal
  max : JsonVal
  inc : JsonVal

/-- The record `DucoBoxNodeConfig` as built by `async_get_node_config`. -/
structure DucoBoxNodeConfig where
  node_id : Int
  co2_setpoint : Option DucoBoxNodeConfigParam
  rh_setpoint : Option DucoBoxNodeConfigParam
  manual1 : Option DucoBoxNodeConfigParam
  manual2 : Option DucoBoxNodeConfigParam
  manual3 : Option DucoBoxNodeConfigParam
  manual_timeout : Option DucoBoxNodeConfigParam
  temp_dependent : Option DucoBoxNodeConfigParam
  rh_delta : Option DucoBoxNodeConfigParam
  sensor_visu_level : Option DucoBoxNodeConfigParam
  auto_min : Option DucoBoxNodeConfigParam
  auto_max : Option DucoBoxNodeConfigParam
  capacity : Option DucoBoxNodeConfigParam
  bypass_mode : Option DucoBoxNodeConfigParam
  bypass_adaptive : Option DucoBoxNodeConfigParam
  comfort_temperature : Option DucoBoxNodeConfigParam
  filter_reset : Option DucoBoxNodeConfigParam
  calib_pin_max : Option DucoBoxNodeConfigParam
  calib_pout_max : Option DucoBoxNodeConfigParam
  calib_qout : Option DucoBoxNodeConfigParam
  program_mode_zone1 : Option DucoBoxNodeConfigParam
  program_mode_zone2 : Option DucoBoxNodeConfigParam
  location : Option JsonVal

/-- Model of `create_param(data, key)`: a `ParamRange` when the key exists and maps
to a dict, absence otherwise; `key in data` or `data[key]` on an ill-typed
`data` raises. -/
def create_param (data : JsonVal) (key : String) :
    Except Unit (Option DucoBoxNodeConfigParam) :=
  match pyIn key data with
  | .error e => .error e
  | .ok false => .ok none
  | .ok true =>
    match pyIndex data key with
    | .error e => .error e
    | .ok (.obj pfs) =>
      .ok (some
        { val := (jlookup pfs "Val").getD (.num 0)
          min := (jlookup pfs "Min").getD (.num 0)
          max := (jlookup pfs "Max").getD (.num 0)
          inc := (jlookup pfs "Inc").getD (.num 1) })
    | .ok _ => .ok none

/-- The node-config read request (`/nodeconfigget`, standard timeout). -/
def nodeConfigGetReq (i : Int) : Request :=
  ⟨.nodeconfigget, [("node", .i i)], 10⟩

/-- The box-config read request (`/boxconfigget`, standard timeout). -/
def boxConfigGetReq : Request :=
  ⟨.boxconfigget, [], 10⟩

/-- The `DucoBoxNodeConfig` built for node 1 from the (possibly empty)
node-level and box-level `Energy` dicts, parameters in source order. -/
def buildConfigBox (node_data energy_data : JsonVal) :
    Except Unit DucoBoxNodeConfig := do
  let co2_setpoint ← create_param node_data "CO2Setpoint"
  let rh_setpoint ← create_param node_data "RHSetpoint"
  let manual1 ← create_param node_data "Manual1"
  let manual2 ← create_param node_data "Manual2"
  let manual3 ← create_param node_data "Manual3"
  let manual_timeout ← create_param node_data "ManualTimeout"
  let temp_dependent ← create_param node_data "TempDependent"
  let rh_delta ← create_param node_data "RHDelta"
  let sensor_visu_level ← create_param node_data "SensorVisuLevel"
  let auto_min ← create_param node_data "AutoMin"
  let auto_max ← create_param node_data "AutoMax"
  let capacity ← create_param node_data "Capacity"
  let bypass_mode ← create_param energy_data "BypassMode"
  let bypass_adaptive ← create_param energy_data "BypassAdaptive"
  let comfort_temperature ← create_param energy_data "ComfortTemperature"
  let filter_reset ← create_param energy_data "FilterReset"
  let calib_pin_max ← create_param energy_data "CalibPinMax"
  let calib_pout_max ← create_param energy_data "CalibPoutMax"
  let calib_qout ← create_param energy_data "CalibQout"
  let program_mode_zone1 ← create_param energy_data "ProgramModeZone1"
  let program_mode_zone2 ← create_param energy_data "ProgramModeZone2"
  let location ← pyDictGet node_data "Location"
  pure { node_id := 1, co2_setpoint := co2_setpoint, rh_setpoint := rh_setpoint,
         manual1 := manual1, manual2 := manual2, manual3 := manual3,
         manual_timeout := manual_timeout, temp_dependent := temp_dependent,
         rh_delta := rh_delta, sensor_visu_level := sensor_visu_level,
         auto_min := auto_min, auto_max := auto_max, capacity := capacity,
         bypass_mode := bypass_mode, bypass_adaptive := bypass_adaptive,
         comfort_temperature := comfort_temperature, filter_reset := filter_reset,
         calib_pin_max := calib_pin_max, calib_pout_max := calib_pout_max,
         calib_qout := calib_qout, program_mode_zone1 := program_mode_zone1,
         program_mode_zone2 := program_mode_zone2, location := location }

/-- The `DucoBoxNodeConfig` built for a node other than 1: only node-level
parameters, every box-level slot absent. -/
def buildConfigNode (node_id : Int) (data : JsonVal) :
    Except Unit DucoBoxNodeConfig := do
  let co2_setpoint ← create_param data "CO2Setpoint"
  let rh_setpoint ← create_param data "RHSetpoint"
  let manual1 ← create_param data "Manual1"
  let manual2 ← create_param data "Manual2"
  let manual3 ← create_param data "Manual3"
  let manual_timeout ← create_param data "ManualTimeout"
  let temp_dependent ← create_param data "TempDependent"
  let rh_delta ← create_param data "RHDelta"
  let sensor_visu_level ← create_param data "SensorVisuLevel"
  let location ← pyDictGet data "Location"
  pure { node_id := node_id, co2_setpoint := co2_setpoint,
         rh_setpoint := rh_setpoint, manual1 := manual1, manual2 := manual2,
         manual3 := manual3, manual_timeout := manual_timeout,
         temp_dependent := temp_dependent, rh_delta := rh_delta,
         sensor_visu_level := sensor_visu_level, auto_min := none,
         auto_max := none, capacity := none, bypass_mode := none,
         bypass_adaptive := none, comfort_temperature := none,
         filter_reset := none, calib_pin_max := none, calib_pout_max := none,
         calib_qout := none, program_mode_zone1 := none,
         program_mode_zone2 := none, location := location }

/-- The node-level fetch of `async_get_node_config` for node 1: a transport
fault or a decode fault of a 200 body raises; `node_data` starts as the
empty dict and is only replaced by the decoded body on status 200, so a
non-200 status leaves it empty without raising. -/
def nodeCfgFetch (o : HttpResult) : Except Unit JsonVal :=
  match o with
  | .err => .error ()
  | .ok status body =>
    if status == 200 then
      match body with
      | none => .error ()
      | some j => .ok j
    else .ok (.obj [])

/-- The box-level fetch of `async_get_node_config` for node 1: like the
node-level fetch, but on status 200 the `Energy` section is extracted from
the decoded body (defaulting to the empty dict). -/
def boxCfgFetch (o : HttpResult) : Except Unit JsonVal :=
  match o with
  | .err => .error ()
  | .ok bstatus bbody =>
    if bstatus == 200 then
      match bbody with
      | none => .error ()
      | some box_data =>
        match pyDictGet box_data "Energy" with
        | .error e => .error e
        | .ok e => .ok (e.getD (.obj []))
    else .ok (.obj [])

/-- Model of `async_get_node_config`: for node 1 two sequential reads (node config
then box config) merged into one record, for any other node a single read;
the whole body sits in a try/except returning `None`, so any raised fault
yields `none`.  A non-200 status does not raise: the corresponding data is
taken to be the empty dict (node 1) or the operation falls through to
`return None` (other nodes).  When the node-level fetch raises, the box
request is never issued (hence the shorter request log in that branch). -/
def async_get_node_config (env : Env) (node_id : Int) :
    Option DucoBoxNodeConfig × List Request :=
  if node_id == 1 then
    match nodeCfgFetch (env (nodeConfigGetReq 1)) with
    | .error _ => (none, [nodeConfigGetReq 1])
    | .ok node_data =>
      match boxCfgFetch (env boxConfigGetReq) with
      | .error _ => (none, [nodeConfigGetReq 1, boxConfigGetReq])
      | .ok energy_data =>
        match buildConfigBox node_data energy_data with
        | .error _ => (none, [nodeConfigGetReq 1, boxConfigGetReq])
        | .ok cfg => (some cfg, [nodeConfigGetReq 1, boxConfigGetReq])
  else
    match env (nodeConfigGetReq node_id) with
    | .err => (none, [nodeConfigGetReq node_id])
    | .ok status body =>
      if status == 200 then
        match body with
        | none => (none, [nodeConfigGetReq node_id])
        | some data =>
          match buildConfigNode node_id data with
          | .error _ => (none, [nodeConfigGetReq node_id])
          | .ok cfg => (some cfg, [nodeConfigGetReq node_id])
      else (none, [nodeConfigGetReq node_id])

/-- The spec's presence rule for one probe outcome: HTTP 200, a decoded
body, and truthy (present, non-empty) `location` and `devtype` fields. -/
def presentOutcome : HttpResult → Bool
  | .err => false
  | .ok status body =>
    status == 200 &&
      (match body with
       | some (.obj fs) => truthyO (jlookup fs "location") && truthyO (jlookup fs "devtype")
       | _ => false)

/-- Schema safety of a probe outcome for the humidity comparison: the `rh`
field, when present and truthy in a decoded 200 body, is numeric (otherwise
the source's `data.get("rh") > 0` raises a TypeError). -/
def rhSafeOutcome : HttpResult → Bool
  | .err => true
  | .ok status body =>
    !(status == 200) ||
      (match body with
       | some (.obj fs) =>
         (match jlookup fs "rh" with
          | some (.num _) => true
          | some v => !truthy v
          | none => true)
       | _ => true)

/-- Whether an HTTP outcome delivered a response with status exactly 200. -/
def isStatus200 : HttpResult → Bool
  | .err => false
  | .ok status _ => status == 200

/-- The spec's decoding contract for one energy temperature field: absent
raw value gives an absent result, a zero raw value gives an absent result,
and a non-zero raw value is divided by 10. -/
def TempSpec (raw : Option JsonVal) (res : Option ℚ) : Prop :=
  (raw = none → res = none) ∧
  ∀ v : Int, raw = some (.num v) →
    ((v = 0 → res = none) ∧ (v ≠ 0 → res = some ((v : ℚ) / 10)))

/-- The environment that agrees with `env` everywhere except that the scan
probe for candidate `i` raises a transport fault. -/
def faultEnvAt (env : Env) (i : Int) : Env := fun r =>
  if r = nodeInfoScanReq i then .err else env r

/-- The environment in which every request raises a transport fault. -/
def envAllErr : Env := fun _ => .err

/-- Scan environment for a witness: candidate 2 answers 200 with a valid
record, every other request faults. -/
def envScanW : Env := fun r =>
  if r = nodeInfoScanReq 2 then
    .ok 200 (some (.obj [("location", .str "Hall"), ("devtype", .str "UCRH")]))
  else .err

/-- Scan environment for the counterexample: candidate 2 answers 200 with a
non-empty location and devtype but a truthy non-numeric `rh` field. -/
def envScanRhBad : Env := fun r =>
  if r = nodeInfoScanReq 2 then
    .ok 200 (some (.obj
      [("location", .str "Hall"), ("devtype", .str "UCRH"), ("rh", .str "bad")]))
  else .err

/-- The record candidate 3 answers with in `envHumW`. -/
def fsHumW : List (String × JsonVal) :=
  [("location", .str "Kitchen"), ("devtype", .str "CO2"), ("rh", .num 45)]

/-- Scan environment for the humidity witness: candidate 3 answers 200 with
a valid record carrying raw humidity 45. -/
def envHumW : Env := fun r =>
  if r = nodeInfoScanReq 3 then .ok 200 (some (.obj fsHumW)) else .err

/-- The node the scanner emits for candidate 3 under `envHumW`. -/
def nodeHumW : DucoBoxNodeData :=
  { node_id := 3, location := .str "Kitchen", devtype := .str "CO2",
    temp := none, co2 := none, rh := some (.num 45), state := none,
    mode := none, swversion := none, serialnb := none, error := none,
    ovrl := none, netw := none, cntdwn := none, endtime := none,
    rssi_n2m := none, rssi_n2h := none, hop_via := none, asso := none,
    cerr := none }

/-- Config environment for the counterexample: the node-level read for node
1 answers 404 (a failed sub-call), the box-level read answers 200 with one
`Energy` parameter; nothing raises. -/
def envCfgBoxOnly : Env := fun r =>
  if r = nodeConfigGetReq 1 then .ok 404 (some (.obj []))
  else if r = boxConfigGetReq then
    .ok 200 (some (.obj [("Energy", .obj
      [("BypassMode", .obj
        [("Val", .num 1), ("Min", .num 0), ("Max", .num 2), ("Inc", .num 1)])])]))
  else .err

/-- The merged configuration `async_get_node_config` returns under
`envCfgBoxOnly`: every node-level slot absent, the box-level `bypass_mode`
slot populated. -/
def cfgBoxOnly : DucoBoxNodeConfig :=
  { node_id := 1, co2_setpoint := none, rh_setpoint := none, manual1 := none,
    manual2 := none, manual3 := none, manual_timeout := none,
    temp_dependent := none, rh_delta := none, sensor_visu_level := none,
    auto_min := none, auto_max := none, capacity := none,
    bypass_mode := some { val := .num 1, min := .num 0, max := .num 2, inc := .num 1 },
    bypass_adaptive := none, comfort_temperature := none, filter_reset := none,
    calib_pin_max := none, calib_pout_max := none, calib_qout := none,
    program_mode_zone1 := none, program_mode_zone2 := none, location := none }

/-- The `EnergyInfo` section used in the energy witness: raw `TempODA` 215,
raw `TempSUP` 0. -/
def efsEnergyW : List (String × JsonVal) :=
  [("TempODA", .num 215), ("TempSUP", .num 0)]

/-- The full body used in the energy witness. -/
def fsEnergyW : List (String × JsonVal) :=
  [("EnergyInfo", .obj efsEnergyW), ("EnergyFan", .obj [])]

/-- Energy environment for the witness: `/boxinfoget` answers 200 with
`fsEnergyW`, everything else faults. -/
def envEnergyW : Env := fun r =>
  if r = boxInfoGetReq then .ok 200 (some (.obj fsEnergyW)) else .err

/-- The energy record decoded under `envEnergyW`: 215 becomes 21.5, the
falsy 0 and the absent fields become absent. -/
def energyInfoW : DucoBoxEnergyInfo :=
  { temp_oda := some (((215 : Int) : ℚ) / 10), temp_sup := none,
    temp_eta := none, temp_eha := none, bypass_status := none,
    filter_remaining_time := none, supply_fan_speed := none,
    supply_fan_pwm_percentage := none, exhaust_fan_speed := none,
    exhaust_fan_pwm_percentage := none }

/-! ## General lemmas about the embedding -/

theorem foldl_scanStep (env : Env) (l : List Int) (ns : List DucoBoxNodeData)
    (rs : List Request) :
    l.foldl (scanStep env) (ns, rs) =
      (ns ++ l.filterMap (probeNode env), rs ++ l.map nodeInfoScanReq) := by
  induction l generalizing ns rs with
  | nil => simp
  | cons i t ih =>
    cases hp : probeNode env i with
    | none => simp [List.foldl_cons, scanStep, hp, ih]
    | some n => simp [List.foldl_cons, scanStep, hp, ih]

theorem async_get_nodes_eq (env : Env) :
    async_get_nodes env =
      (candidateIds.filterMap (probeNode env), candidateIds.map nodeInfoScanReq) := by
  simpa [async_get_nodes] using foldl_scanStep env candidateIds [] []

theorem buildNode_node_id (i : Int) (data : JsonVal) (n : DucoBoxNodeData)
    (h : buildNode i data = .ok (some n)) : n.node_id = i := by
  cases data with
  | obj fs =>
    simp only [buildNode] at h
    split at h
    · split at h
      · exact absurd h (by simp)
      · simp only [Except.ok.injEq, Option.some.injEq] at h
        rw [← h]
    · simp at h
  | str s => simp [buildNode] at h
  | num m => simp [buildNode] at h
  | null => simp [buildNode] at h

theorem probeNode_node_id (env : Env) (i : Int) (n : DucoBoxNodeData)
    (h : probeNode env i = some n) : n.node_id = i := by
  unfold probeNode at h
  split at h
  · simp at h
  · rename_i status body
    split at h
    · split at h
      · simp at h
      · rename_i data
        split at h
        · simp at h
        · rename_i r heqb
          rw [h] at heqb
          exact buildNode_node_id i data n heqb
    · simp at h

theorem mem_pyRange (a b : Nat) (i : Int) :
    i ∈ pyRange a b ↔ ((a : Int) ≤ i ∧ i < (b : Int)) := by
  unfold pyRange
  rw [List.mem_map]
  constructor
  · rintro ⟨n, hn, rfl⟩
    rw [List.mem_range'_1] at hn
    rw [Int.ofNat_eq_natCast]
    constructor <;> omega
  · rintro ⟨h1, h2⟩
    refine ⟨i.toNat, ?_, ?_⟩
    · rw [List.mem_range'_1]
      omega
    · rw [Int.ofNat_eq_natCast]
      omega

/-! ## C10 -/

/-- C10: `async_get_ventilation_state_options` returns the same fixed list
of eight labels in table order for every environment, issues no HTTP
request, and (being a total function into a plain list) cannot fail. -/
theorem ventilation_state_options_constant (env : Env) :
    async_get_ventilation_state_options env =
      (["Auto", "Manual 1", "Manual 1 Forced", "Manual 2", "Manual 2 Forced",
        "Manual 3", "Manual 3 Forced", "Away"], ([] : List Request)) := rfl

/-! ## C9 -/

/-- C9: the state table is bidirectionally consistent: for every
(code, label) row, the reverse map sends the label to the code, the forward
translation used by the state read sends the code back to the label, and
hence label-to-code-to-label is the identity on the table's labels. -/
theorem state_map_bidirectional_round_trip (code label : String)
    (h : (code, label) ∈ STATE_MAP) :
    stateToApi label = code ∧ stateToLabel code = label ∧
      stateToLabel (stateToApi label) = label := by
  fin_cases h <;> exact ⟨by decide, by decide, by decide⟩

/-- Witness for C9 at the pair highlighted by the spec: "Away" encodes to
"EMPT" and a successful state read translates "EMPT" back to "Away". -/
theorem state_map_bidirectional_round_trip_witness :
    stateToApi "Away" = "EMPT" ∧ stateToLabel "EMPT" = "Away" ∧
      stateToLabel (stateToApi "Away") = "Away" :=
  state_map_bidirectional_round_trip "EMPT" "Away" (by decide)

/-! ## C2 -/

/-- C2 (counterexample): a transport fault in `async_set_ventilation_state`
is NOT absorbed into a boolean: the operation (whose body has no
try/except and calls `raise_for_status`) propagates the exception, so the
claim that no write operation ever propagates an exception is false. -/
theorem set_ventilation_state_propagates_fault :
    (async_set_ventilation_state envAllErr "Away").1 = Except.error () := rfl

/-- C2 (amended): `async_set_node_config` and `async_set_node_override`
absorb every failure and report a plain boolean, true exactly when a
response with status 200 arrived; `async_set_ventilation_state` is the
exception and propagates transport faults and error statuses. -/
theorem set_commands_absorb_failures (env : Env) (node_id : Int)
    (parameter : String) (value : ℚ) (percentage : Int) :
    (async_set_node_override env node_id percentage).1 =
        isStatus200 (env (nodeSetOverruleReq node_id percentage)) ∧
      (async_set_node_config env node_id parameter value).1 =
        isStatus200 (env (if node_id == 1 && box_level_params.contains parameter
          then boxConfigSetReq parameter (pyInt value)
          else nodeConfigSetReq node_id parameter (pyInt value))) := by
  constructor
  · cases h : env (nodeSetOverruleReq node_id percentage) <;>
      simp [async_set_node_override, isStatus200, h]
  · by_cases hp : node_id = 1 ∧ parameter ∈ box_level_params
    · have hc : (node_id == 1 && box_level_params.contains parameter) = true := by
        simp [hp.1, hp.2]
      cases h : env (boxConfigSetReq parameter (pyInt value)) <;>
        simp [async_set_node_config, isStatus200, hc, hp.1, hp.2, h]
    · have hc : (node_id == 1 && box_level_params.contains parameter) = false := by
        by_contra hne
        rw [Bool.not_eq_false] at hne
        exact hp (by simpa using hne)
      cases h : env (nodeConfigSetReq node_id parameter (pyInt value)) <;>
        simp [async_set_node_config, isStatus200, hc, hp, h]

/-! ## C6 -/

theorem pyInt_truncation (v : ℚ) :
    |((pyInt v : Int) : ℚ)| ≤ |v| ∧ |v - ((pyInt v : Int) : ℚ)| < 1 := by
  unfold pyInt
  by_cases h : 0 ≤ v
  · rw [if_pos h]
    have h1 : ((⌊v⌋ : Int) : ℚ) ≤ v := Int.floor_le v
    have h2 : v < ⌊v⌋ + 1 := Int.lt_floor_add_one v
    have h3 : (0 : ℚ) ≤ ((⌊v⌋ : Int) : ℚ) := by
      exact_mod_cast Int.floor_nonneg.mpr h
    rw [abs_of_nonneg h3, abs_of_nonneg h, abs_of_nonneg (by linarith)]
    constructor <;> linarith
  · push_neg at h
    rw [if_neg (not_le.mpr h)]
    have h1 : v ≤ ((⌈v⌉ : Int) : ℚ) := Int.le_ceil v
    have h2 : ((⌈v⌉ : Int) : ℚ) < v + 1 := Int.ceil_lt_add_one v
    have h3 : ((⌈v⌉ : Int) : ℚ) ≤ 0 := by
      have : ⌈v⌉ ≤ (0 : Int) := Int.ceil_le.mpr (by exact_mod_cast h.le)
      exact_mod_cast this
    rw [abs_of_nonpos h3, abs_of_nonpos h.le, abs_of_nonpos (by linarith)]
    constructor <;> linarith

/-- C6: `async_set_node_config` issues exactly one write, routed to the box
endpoint (with the explicit `mod=Energy` section tag and no node parameter)
exactly when the target is node 1 and the parameter is in the fixed
box-level set, and to the node endpoint (carrying the node id) otherwise;
in both cases the value sent is the integer truncation of the input (its
magnitude never exceeds the input's and it differs from the input by less
than one). -/
theorem set_node_config_routing_and_truncated_value (env : Env)
    (node_id : Int) (parameter : String) (value : ℚ) :
    (async_set_node_config env node_id parameter value).2 =
        [if node_id == 1 && box_level_params.contains parameter
          then boxConfigSetReq parameter (pyInt value)
          else nodeConfigSetReq node_id parameter (pyInt value)] ∧
      (boxConfigSetReq parameter (pyInt value)).endpoint = Endpoint.boxconfigset ∧
      (boxConfigSetReq parameter (pyInt value)).params.lookup "mod" =
        some (.s "Energy") ∧
      (boxConfigSetReq parameter (pyInt value)).params.lookup "para" =
        some (.s parameter) ∧
      (boxConfigSetReq parameter (pyInt value)).params.lookup "value" =
        some (.i (pyInt value)) ∧
      (boxConfigSetReq parameter (pyInt value)).params.lookup "node" = none ∧
      (nodeConfigSetReq node_id parameter (pyInt value)).endpoint =
        Endpoint.nodeconfigset ∧
      (nodeConfigSetReq node_id parameter (pyInt value)).params.lookup "node" =
        some (.i node_id) ∧
      (nodeConfigSetReq node_id parameter (pyInt value)).params.lookup "para" =
        some (.s parameter) ∧
      (nodeConfigSetReq node_id parameter (pyInt value)).params.lookup "value" =
        some (.i (pyInt value)) ∧
      |((pyInt value : Int) : ℚ)| ≤ |value| ∧
      |value - ((pyInt value : Int) : ℚ)| < 1 := by
  refine ⟨?_, rfl, rfl, rfl, rfl, rfl, rfl, rfl, rfl, rfl,
    (pyInt_truncation value).1, (pyInt_truncation value).2⟩
  by_cases hp : node_id = 1 ∧ parameter ∈ box_level_params
  · have hc : (node_id == 1 && box_level_params.contains parameter) = true := by
      simp [hp.1, hp.2]
    cases h : env (boxConfigSetReq parameter (pyInt value)) <;>
      simp [async_set_node_config, hc, hp.1, hp.2, h]
  · have hc : (node_id == 1 && box_level_params.contains parameter) = false := by
      by_contra hne
      rw [Bool.not_eq_false] at hne
      exact hp (by simpa using hne)
    cases h : env (nodeConfigSetReq node_id parameter (pyInt value)) <;>
      simp [async_set_node_config, hc, hp, h]

/-! ## C5 -/

theorem probe_filterMap_sublist (env : Env) (l : List Int) :
    ((l.filterMap (probeNode env)).map (fun n => n.node_id)).Sublist l := by
  induction l with
  | nil => simp
  | cons j t ih =>
    cases hp : probeNode env j with
    | none =>
      rw [List.filterMap_cons_none hp]
      exact ih.cons j
    | some n =>
      rw [List.filterMap_cons_some hp, List.map_cons,
        probeNode_node_id env j n hp]
      exact ih.cons₂ j

/-- C5: for every environment the scan issues exactly one `nodeinfoget`
probe (with the short 2-second timeout) for each candidate id, in the order
2–10 then 50–100 and for no other id: the probe log is the candidate list
itself, which is strictly ascending (hence duplicate-free) and contains an
id exactly when it lies in one of the two ranges; the returned nodes keep
the scan order (their ids form a sublist of the candidate list). -/
theorem scanner_probe_coverage_and_order (env : Env) :
    (async_get_nodes env).2 = candidateIds.map nodeInfoScanReq ∧
      candidateIds = pyRange 2 11 ++ pyRange 50 101 ∧
      candidateIds =
        [2, 3, 4, 5, 6, 7, 8, 9, 10,
         50, 51, 52, 53, 54, 55, 56, 57, 58, 59, 60, 61, 62, 63, 64, 65, 66,
         67, 68, 69, 70, 71, 72, 73, 74, 75, 76, 77, 78, 79, 80, 81, 82, 83,
         84, 85, 86, 87, 88, 89, 90, 91, 92, 93, 94, 95, 96, 97, 98, 99, 100] ∧
      candidateIds.Nodup ∧
      (∀ i : Int, i ∈ candidateIds ↔ ((2 ≤ i ∧ i ≤ 10) ∨ (50 ≤ i ∧ i ≤ 100))) ∧
      ((async_get_nodes env).1.map (fun n => n.node_id)).Sublist candidateIds := by
  refine ⟨?_, rfl, by decide, by decide, ?_, ?_⟩
  · rw [async_get_nodes_eq]
  · intro i
    rw [candidateIds, List.mem_append, mem_pyRange, mem_pyRange]
    constructor
    · rintro (⟨h1, h2⟩ | ⟨h1, h2⟩)
      · exact Or.inl (by omega)
      · exact Or.inr (by omega)
    · rintro (⟨h1, h2⟩ | ⟨h1, h2⟩)
      · exact Or.inl (by omega)
      · exact Or.inr (by omega)
  · rw [async_get_nodes_eq]
    exact probe_filterMap_sublist env candidateIds

/-! ## C4 -/

theorem nodeInfoScanReq_inj (j i : Int) :
    nodeInfoScanReq j = nodeInfoScanReq i ↔ j = i := by
  constructor
  · intro h
    have := congrArg (fun r => r.params) h
    simpa [nodeInfoScanReq] using this
  · rintro rfl
    rfl

theorem probeNode_faultEnvAt (env : Env) (i j : Int) :
    probeNode (faultEnvAt env i) j = if j = i then none else probeNode env j := by
  by_cases hj : j = i
  · subst hj
    simp [probeNode, faultEnvAt]
  · rw [if_neg hj]
    unfold probeNode
    have : faultEnvAt env i (nodeInfoScanReq j) = env (nodeInfoScanReq j) := by
      unfold faultEnvAt
      rw [if_neg (fun hh => hj ((nodeInfoScanReq_inj j i).mp hh))]
    rw [this]

/-- C4: a transport fault in one candidate's probe is contained to that
candidate: faulting candidate `i` removes exactly the node with id `i` (if
any) from the scan result, every other candidate still contributes its
unchanged result, and the same probes are still issued.  The scan itself is
a total function into a plain list, so it never propagates the fault. -/
theorem scanner_fault_isolation (env : Env) (i : Int) :
    (async_get_nodes (faultEnvAt env i)).1 =
        (async_get_nodes env).1.filter (fun n => n.node_id != i) ∧
      (async_get_nodes (faultEnvAt env i)).2 = (async_get_nodes env).2 := by
  constructor
  · rw [async_get_nodes_eq, async_get_nodes_eq]
    have key : ∀ l : List Int,
        l.filterMap (probeNode (faultEnvAt env i)) =
          (l.filterMap (probeNode env)).filter (fun n => n.node_id != i) := by
      intro l
      induction l with
      | nil => rfl
      | cons j t ih =>
        by_cases hj : j = i
        · subst hj
          cases hq : probeNode env j with
          | none =>
            rw [List.filterMap_cons_none (by rw [probeNode_faultEnvAt]; simp),
              List.filterMap_cons_none hq, ih]
          | some n =>
            rw [List.filterMap_cons_none (by rw [probeNode_faultEnvAt]; simp),
              List.filterMap_cons_some hq, ih, List.filter_cons,
              probeNode_node_id env j n hq]
            simp
        · cases hq : probeNode env j with
          | none =>
            rw [List.filterMap_cons_none (by rw [probeNode_faultEnvAt, if_neg hj]; exact hq),
              List.filterMap_cons_none hq, ih]
          | some n =>
            rw [List.filterMap_cons_some (by rw [probeNode_faultEnvAt, if_neg hj]; exact hq),
              List.filterMap_cons_some hq, ih, List.filter_cons,
              probeNode_node_id env j n hq]
            simp [hj]
    exact key candidateIds
  · rw [async_get_nodes_eq, async_get_nodes_eq]

/-! ## C3 -/

theorem sanitize_rh_ok_of_safe (fs : List (String × JsonVal))
    (hsafe : (match jlookup fs "rh" with
              | some (.num _) => true
              | some v => !truthy v
              | none => true) = true) :
    ∃ r, sanitize_rh (jlookup fs "rh") = .ok r := by
  unfold sanitize_rh
  cases hj : jlookup fs "rh" with
  | none => exact ⟨none, by simp [truthyO]⟩
  | some v =>
    rw [hj] at hsafe
    cases v with
    | num m =>
      by_cases hm : truthyO (some (.num m)) = true
      · exact ⟨if 0 < m then some (.num m) else none, by rw [if_pos hm]⟩
      · exact ⟨none, by rw [if_neg hm]⟩
    | str s =>
      simp only [Bool.not_eq_true'] at hsafe
      exact ⟨none, by rw [if_neg (by simp [truthyO, hsafe])]⟩
    | obj ofs =>
      simp only [Bool.not_eq_true'] at hsafe
      exact ⟨none, by rw [if_neg (by simp [truthyO, hsafe])]⟩
    | null =>
      exact ⟨none, by rw [if_neg (by simp [truthyO, truthy])]⟩

theorem probeNode_isSome_eq (env : Env) (i : Int)
    (hsafe : rhSafeOutcome (env (nodeInfoScanReq i)) = true) :
    (probeNode env i).isSome = presentOutcome (env (nodeInfoScanReq i)) := by
  cases h : env (nodeInfoScanReq i) with
  | err => simp [probeNode, presentOutcome, h]
  | ok status body =>
    rw [h] at hsafe
    by_cases hs : (status == 200) = true
    · cases body with
      | none => simp [probeNode, presentOutcome, h, hs]
      | some data =>
        cases data with
        | obj fs =>
          simp only [rhSafeOutcome, hs, Bool.not_true, Bool.false_or] at hsafe
          by_cases hld : (truthyO (jlookup fs "location") &&
              truthyO (jlookup fs "devtype")) = true
          · obtain ⟨r, hr⟩ := sanitize_rh_ok_of_safe fs hsafe
            simp [probeNode, presentOutcome, h, hs, buildNode, hld, hr]
          · simp [probeNode, presentOutcome, h, hs, buildNode, hld]
        | str s => simp [probeNode, presentOutcome, h, hs, buildNode]
        | num m => simp [probeNode, presentOutcome, h, hs, buildNode]
        | null => simp [probeNode, presentOutcome, h, hs, buildNode]
    · simp [probeNode, presentOutcome, h, hs]

/-- C3 (amended): provided the probe's `rh` field is schema-safe (numeric,
absent, or falsy — otherwise the humidity comparison raises a TypeError and
the candidate is skipped even with valid location and devtype), a candidate
appears in the scan result exactly when its probe returned HTTP 200 with a
decoded object body whose `location` and `devtype` fields are present and
non-empty; every other outcome leaves the candidate absent. -/
theorem scanner_presence_iff (env : Env) (i : Int) (hmem : i ∈ candidateIds)
    (hsafe : rhSafeOutcome (env (nodeInfoScanReq i)) = true) :
    ((async_get_nodes env).1.any (fun n => n.node_id == i)) =
      presentOutcome (env (nodeInfoScanReq i)) := by
  rw [async_get_nodes_eq, ← probeNode_isSome_eq env i hsafe]
  cases hq : probeNode env i with
  | some n =>
    have hid := probeNode_node_id env i n hq
    have hmem2 : n ∈ candidateIds.filterMap (probeNode env) :=
      List.mem_filterMap.mpr ⟨i, hmem, hq⟩
    simp only [Option.isSome_some]
    exact List.any_eq_true.mpr ⟨n, hmem2, by simp [hid]⟩
  | none =>
    simp only [Option.isSome_none]
    rw [List.any_eq_false]
    intro n hn
    obtain ⟨j, hj, hpj⟩ := List.mem_filterMap.mp hn
    have hid := probeNode_node_id env j n hpj
    have hji : j ≠ i := by
      intro hh
      rw [hh, hq] at hpj
      exact Option.noConfusion hpj
    rw [hid]
    exact fun hh => hji (by simpa using hh)

/-- Witness for the amended C3 at a concrete schema-safe environment. -/
theorem scanner_presence_iff_witness :
    ((async_get_nodes envScanW).1.any (fun n => n.node_id == 2)) =
      presentOutcome (envScanW (nodeInfoScanReq 2)) :=
  scanner_presence_iff envScanW 2 (by decide) (by decide)

/-- C3 (counterexample): under `envScanRhBad` candidate 2's probe returns
HTTP 200 with a decoded body whose `location` and `devtype` are present and
non-empty — the claim's presence condition holds — yet the scan result is
empty, because the truthy non-numeric `rh` value makes the source's
`data.get("rh") > 0` comparison raise and the candidate is skipped.  The
claimed biconditional is therefore false as stated. -/
theorem scanner_presence_extra_absence_case :
    presentOutcome (envScanRhBad (nodeInfoScanReq 2)) = true ∧
      (async_get_nodes envScanRhBad).1 = [] := ⟨rfl, rfl⟩

/-! ## C7 -/

/-- C7: for every node the scanner emits, with `fs` the decoded body of its
probe, the node's humidity is absent when the raw `rh` field is missing or
not strictly positive, and equals the raw value when it is strictly
positive. -/
theorem scanner_humidity_sanitization (env : Env) (n : DucoBoxNodeData)
    (hmem : n ∈ (async_get_nodes env).1) (fs : List (String × JsonVal))
    (hresp : env (nodeInfoScanReq n.node_id) = .ok 200 (some (.obj fs))) :
    (jlookup fs "rh" = none → n.rh = none) ∧
      ∀ v : Int, jlookup fs "rh" = some (.num v) →
        ((v ≤ 0 → n.rh = none) ∧ (0 < v → n.rh = some (.num v))) := by
  rw [async_get_nodes_eq] at hmem
  obtain ⟨j, hj, hpj⟩ := List.mem_filterMap.mp hmem
  have hid := probeNode_node_id env j n hpj
  subst hid
  unfold probeNode at hpj
  rw [hresp] at hpj
  change (match buildNode n.node_id (JsonVal.obj fs) with
          | Except.error _ => none
          | Except.ok r => r) = some n at hpj
  cases hb : buildNode n.node_id (JsonVal.obj fs) with
  | error e => rw [hb] at hpj; simp at hpj
  | ok r =>
    rw [hb] at hpj
    subst hpj
    simp only [buildNode] at hb
    split at hb
    · split at hb
      · exact absurd hb (by simp)
      · rename_i rh hs
        simp only [Except.ok.injEq, Option.some.injEq] at hb
        have hnrh : n.rh = rh := by rw [← hb]
        constructor
        · intro hnone
          rw [hnone] at hs
          simp only [sanitize_rh, truthyO, Bool.false_eq_true, if_false,
            Except.ok.injEq] at hs
          rw [hnrh, ← hs]
        · intro v hv
          rw [hv] at hs
          unfold sanitize_rh at hs
          by_cases hv0 : v = 0
          · subst hv0
            rw [if_neg (by simp [truthyO, truthy])] at hs
            simp only [Except.ok.injEq] at hs
            constructor
            · intro _
              rw [hnrh, ← hs]
            · intro h0
              exact absurd h0 (by omega)
          · rw [if_pos (by simp [truthyO, truthy, hv0])] at hs
            simp only [Except.ok.injEq] at hs
            constructor
            · intro hle
              rw [if_neg (by omega)] at hs
              rw [hnrh, ← hs]
            · intro hlt
              rw [if_pos hlt] at hs
              rw [hnrh, ← hs]
    · simp at hb

/-- Witness for C7: under `envHumW` the scanner emits exactly `nodeHumW`
for candidate 3, and the theorem applied to the raw humidity 45 yields the
stored value 45. -/
theorem scanner_humidity_sanitization_witness :
    nodeHumW.rh = some (JsonVal.num 45) :=
  ((scanner_humidity_sanitization envHumW nodeHumW
      (by rw [show (async_get_nodes envHumW).1 = [nodeHumW] from rfl]
          exact List.mem_singleton.mpr rfl)
      fsHumW rfl).2 45 rfl).2 (by norm_num)

/-! ## C1 -/

/-- C1 (amended): for the primary unit, any raised fault in either sub-call
— a transport fault on either GET, or a decode fault of a 200 body — makes
`async_get_node_config` return an absent result, with no partial merge.
(A non-200 status, by contrast, is not absorbed into total absence: see the
counterexample.) -/
theorem node_config_fault_total_absence (env : Env)
    (h : env (nodeConfigGetReq 1) = .err ∨
         env (nodeConfigGetReq 1) = .ok 200 none ∨
         env boxConfigGetReq = .err ∨
         env boxConfigGetReq = .ok 200 none) :
    (async_get_node_config env 1).1 = none := by
  unfold async_get_node_config
  rw [if_pos (show ((1 : Int) == 1) = true from rfl)]
  rcases h with h | h | h | h
  · rw [h]
    rfl
  · rw [h]
    rfl
  · cases hn : nodeCfgFetch (env (nodeConfigGetReq 1)) with
    | error e => rfl
    | ok node_data =>
      rw [h]
      rfl
  · cases hn : nodeCfgFetch (env (nodeConfigGetReq 1)) with
    | error e => rfl
    | ok node_data =>
      rw [h]
      rfl

/-- Witness for C1 (amended): with every request faulting, the node-1
configuration aggregation reports no configuration. -/
theorem node_config_fault_total_absence_witness :
    (async_get_node_config envAllErr 1).1 = none :=
  node_config_fault_total_absence envAllErr (Or.inl rfl)

/-- C1 (counterexample): under `envCfgBoxOnly` the node-level sub-call for
node 1 fails with HTTP 404 while the box-level sub-call succeeds, and the
operation does NOT return an absent result: it returns a configuration
whose node-level slots are all absent while the box-level `bypass_mode`
slot is populated from the box call — a partially merged configuration.
The claim that any sub-call failure yields an absent result is therefore
false as stated. -/
theorem node_config_non200_partial_merge :
    (async_get_node_config envCfgBoxOnly 1).1 = some cfgBoxOnly ∧
      cfgBoxOnly.co2_setpoint = none ∧ cfgBoxOnly.bypass_mode.isSome = true :=
  ⟨rfl, rfl, rfl⟩

/-! ## C8 -/

theorem except_bind_ok {α β : Type} {x : Except Unit α} {f : α → Except Unit β}
    {b : β} (h : x >>= f = Except.ok b) :
    ∃ a, x = Except.ok a ∧ f a = Except.ok b := by
  cases x with
  | error e => exact Except.noConfusion h
  | ok a => exact ⟨a, rfl, h⟩

theorem decode_temp_spec (raw : Option JsonVal) (res : Option ℚ)
    (h : decode_temp raw = .ok res) : TempSpec raw res := by
  constructor
  · rintro rfl
    simp only [decode_temp, truthyO, Bool.false_eq_true, if_false,
      Except.ok.injEq] at h
    exact h.symm
  · rintro v rfl
    constructor
    · rintro rfl
      simp only [decode_temp, truthyO, truthy] at h
      simp only [bne_self_eq_false, Bool.false_eq_true, if_false,
        Except.ok.injEq] at h
      exact h.symm
    · intro hv
      rw [show decode_temp (some (JsonVal.num v)) =
            Except.ok (some ((v : ℚ) / 10)) from by
          unfold decode_temp
          rw [if_pos (by simp [truthyO, truthy, hv])]] at h
      simp only [Except.ok.injEq] at h
      exact h.symm

theorem buildEnergy_temps (fs efs : List (String × JsonVal))
    (info : DucoBoxEnergyInfo)
    (hen : jlookup fs "EnergyInfo" = some (JsonVal.obj efs))
    (h : buildEnergy (JsonVal.obj fs) = .ok info) :
    decode_temp (jlookup efs "TempODA") = .ok info.temp_oda ∧
      decode_temp (jlookup efs "TempSUP") = .ok info.temp_sup ∧
      decode_temp (jlookup efs "TempETA") = .ok info.temp_eta ∧
      decode_temp (jlookup efs "TempEHA") = .ok info.temp_eha := by
  unfold buildEnergy at h
  obtain ⟨eOpt, he, h⟩ := except_bind_ok h
  rw [show pyDictGet (JsonVal.obj fs) "EnergyInfo" =
        Except.ok (jlookup fs "EnergyInfo") from rfl, hen] at he
  injection he with he
  subst he
  obtain ⟨fOpt, hf, h⟩ := except_bind_ok h
  obtain ⟨rawOda, hro, h⟩ := except_bind_ok h
  obtain ⟨tOda, hto, h⟩ := except_bind_ok h
  obtain ⟨rawSup, hrs, h⟩ := except_bind_ok h
  obtain ⟨tSup, hts, h⟩ := except_bind_ok h
  obtain ⟨rawEta, hre, h⟩ := except_bind_ok h
  obtain ⟨tEta, hte, h⟩ := except_bind_ok h
  obtain ⟨rawEha, hrh, h⟩ := except_bind_ok h
  obtain ⟨tEha, hth, h⟩ := except_bind_ok h
  obtain ⟨bst, hd1, h⟩ := except_bind_ok h
  obtain ⟨frt, hd2, h⟩ := except_bind_ok h
  obtain ⟨sfs, hd3, h⟩ := except_bind_ok h
  obtain ⟨sfp, hd4, h⟩ := except_bind_ok h
  obtain ⟨efn, hd5, h⟩ := except_bind_ok h
  obtain ⟨efp, hd6, h⟩ := except_bind_ok h
  injection h with h
  subst h
  have hro2 : jlookup efs "TempODA" = rawOda := by
    simp only [Option.getD_some, pyDictGet, Except.ok.injEq] at hro
    exact hro
  have hrs2 : jlookup efs "TempSUP" = rawSup := by
    simp only [Option.getD_some, pyDictGet, Except.ok.injEq] at hrs
    exact hrs
  have hre2 : jlookup efs "TempETA" = rawEta := by
    simp only [Option.getD_some, pyDictGet, Except.ok.injEq] at hre
    exact hre
  have hrh2 : jlookup efs "TempEHA" = rawEha := by
    simp only [Option.getD_some, pyDictGet, Except.ok.injEq] at hrh
    exact hrh
  refine ⟨?_, ?_, ?_, ?_⟩
  · rw [hro2]
    exact hto
  · rw [hrs2]
    exact hts
  · rw [hre2]
    exact hte
  · rw [hrh2]
    exact hth

/-- C8: whenever `async_get_energy_info` returns a record from a decoded
200 body whose `EnergyInfo` section is `efs`, each of the four temperature
fields satisfies the decoding contract: absent raw value gives an absent
field, raw 0 (falsy) gives an absent field, and a non-zero raw value is
divided by 10. -/
theorem energy_temperature_decode (env : Env) (info : DucoBoxEnergyInfo)
    (fs efs : List (String × JsonVal))
    (hresp : env boxInfoGetReq = .ok 200 (some (JsonVal.obj fs)))
    (hen : jlookup fs "EnergyInfo" = some (JsonVal.obj efs))
    (hinfo : (async_get_energy_info env).1 = some info) :
    TempSpec (jlookup efs "TempODA") info.temp_oda ∧
      TempSpec (jlookup efs "TempSUP") info.temp_sup ∧
      TempSpec (jlookup efs "TempETA") info.temp_eta ∧
      TempSpec (jlookup efs "TempEHA") info.temp_eha := by
  unfold async_get_energy_info at hinfo
  rw [hresp] at hinfo
  simp only [show pyRaiseForStatus 200 = Except.ok () from rfl] at hinfo
  cases hb : buildEnergy (JsonVal.obj fs) with
  | error e =>
    rw [hb] at hinfo
    exact absurd hinfo (by simp)
  | ok e =>
    rw [hb] at hinfo
    simp only [Option.some.injEq] at hinfo
    subst hinfo
    obtain ⟨h1, h2, h3, h4⟩ := buildEnergy_temps fs efs e hen hb
    exact ⟨decode_temp_spec _ _ h1, decode_temp_spec _ _ h2,
      decode_temp_spec _ _ h3, decode_temp_spec _ _ h4⟩

/-- Witness for C8 at `envEnergyW`: raw 215 decodes to 21.5 and the falsy
raw 0 yields an absent field. -/
theorem energy_temperature_decode_witness :
    TempSpec (jlookup efsEnergyW "TempODA") energyInfoW.temp_oda ∧
      TempSpec (jlookup efsEnergyW "TempSUP") energyInfoW.temp_sup ∧
      TempSpec (jlookup efsEnergyW "TempETA") energyInfoW.temp_eta ∧
      TempSpec (jlookup efsEnergyW "TempEHA") energyInfoW.temp_eha :=
  energy_temperature_decode envEnergyW energyInfoW fsEnergyW efsEnergyW
    rfl rfl rfl
